import Mathlib

/-!
Shallow embedding of the cloud-provider facade of the
drone-search-and-rescue repository:
`src/shared/cloud/{types,errors,aws-provider,azure-provider,cloud-provider.factory}.ts`
and the capability interface (`ICloudProvider` / `BaseCloudProvider`).

Vendor SDK calls are modelled as their outcomes (`Except JsError _`
arguments); provider state (factory cache, config-loader cache) is passed
explicitly.  At runtime a TypeScript union string such as
`CloudProvider = 'aws' | 'azure'` can hold any string (the factory's
`default` switch arm and the repository's own test that passes
`'invalid' as any` depend on this), so provider tags are embedded as
`String`.
-/

/-- `types.ts` `CloudConfig.credentials.aws`. -/
structure AWSCredentials where
  accessKeyId : String
  secretAccessKey : String
deriving Repr, DecidableEq

/-- `types.ts` `CloudConfig.credentials.azure`. -/
structure AzureCredentials where
  tenantId : String
  clientId : String
  clientSecret : String
  subscriptionId : String
  storageConnectionString : String
deriving Repr, DecidableEq

/-- `types.ts` `CloudConfig.credentials`. -/
structure CloudCredentials where
  region : String
  aws : Option AWSCredentials
  azure : Option AzureCredentials
deriving Repr, DecidableEq

/-- `types.ts` `CloudConfig`.  The `provider` field is the runtime string. -/
structure CloudConfig where
  provider : String
  credentials : CloudCredentials
deriving Repr, DecidableEq

/-- The three-value status enum of `types.ts` `ComputeInstance.status`. -/
inductive InstanceStatus where
  | running
  | stopped
  | terminated
deriving Repr, DecidableEq

/-- `types.ts` `ComputeInstance`. -/
structure ComputeInstance where
  id : String
  status : InstanceStatus
  publicIp : Option String
  privateIp : Option String
deriving Repr, DecidableEq

/-- `types.ts` `StorageOptions`. -/
structure StorageOptions where
  container : String
  path : String
  contentType : Option String
deriving Repr, DecidableEq

/-- `types.ts` `MLModelOptions`. -/
structure MLModelOptions where
  modelId : String
  version : Option String
  runtime : Option String
deriving Repr, DecidableEq

/-- `errors.ts` `CloudService = 'compute' | 'storage' | 'ml'`. -/
inductive CloudService where
  | compute
  | storage
  | ml
deriving Repr, DecidableEq

/-- The string a `CloudService` value interpolates to in a template literal. -/
def CloudService.toStr : CloudService → String
  | .compute => "compute"
  | .storage => "storage"
  | .ml => "ml"

/-- Runtime JavaScript error values reachable in this facade: either a
`CloudProviderError` (`errors.ts`, carrying `provider`, `service` and an
optional `originalError`) or a plain `Error` with just a message. -/
inductive JsError where
  | cloudProviderError (message : String) (provider : String) (service : String)
      (originalError : Option JsError)
  | plainError (message : String)

/-- `Error.message`. -/
def JsError.message : JsError → String
  | .cloudProviderError m _ _ _ => m
  | .plainError m => m

/-- `Error.name`: `CloudProviderError` sets `this.name = 'CloudProviderError'`;
a plain `Error` has name `'Error'`. -/
def JsError.name : JsError → String
  | .cloudProviderError _ _ _ _ => "CloudProviderError"
  | .plainError _ => "Error"

/-- The string an error interpolates to in a template literal
(JavaScript `String(error)` is `name + ": " + message`). -/
def JsError.displayString (e : JsError) : String :=
  e.name ++ ": " ++ e.message

/-- The `error instanceof CloudProviderError` test. -/
def JsError.isCloudProviderError : JsError → Bool
  | .cloudProviderError _ _ _ _ => true
  | .plainError _ => false

/-- The `provider` field of a `CloudProviderError` (none on a plain error). -/
def JsError.providerTag : JsError → Option String
  | .cloudProviderError _ p _ _ => some p
  | .plainError _ => none

/-- The `service` field of a `CloudProviderError` (none on a plain error). -/
def JsError.serviceTag : JsError → Option String
  | .cloudProviderError _ _ s _ => some s
  | .plainError _ => none

/-- The `originalError` field of a `CloudProviderError`. -/
def JsError.originalErrorOf : JsError → Option JsError
  | .cloudProviderError _ _ _ o => o
  | .plainError _ => none

/-- JavaScript `String.prototype.toUpperCase` on the ASCII strings this facade
uses: upper-case every character. -/
def jsToUpperCase (s : String) : String :=
  ⟨s.data.map Char.toUpper⟩

/-- JavaScript `String.prototype.toLowerCase` on the ASCII strings this facade
uses: lower-case every character. -/
def jsToLowerCase (s : String) : String :=
  ⟨s.data.map Char.toLower⟩

/-- `errors.ts` `CloudProviderError.fromError`: builds the tagged error with
message `` `${provider.toUpperCase()} ${service} error: ${error.message}` ``. -/
def CloudProviderError.fromError (error : JsError) (provider : String)
    (service : CloudService) : JsError :=
  .cloudProviderError
    (jsToUpperCase provider ++ " " ++ service.toStr ++ " error: " ++ error.message)
    provider service.toStr (some error)

/-- `errors.ts` `wrapProviderOperation`: run the operation; rethrow a
`CloudProviderError` unchanged, wrap anything else via `fromError`. -/
def wrapProviderOperation {T : Type} (operation : Except JsError T)
    (provider : String) (service : CloudService) : Except JsError T :=
  match operation with
  | .ok v => .ok v
  | .error e =>
    if e.isCloudProviderError then .error e
    else .error (CloudProviderError.fromError e provider service)

/-- JavaScript `a || b` on an optional string (`undefined` and `""` are falsy). -/
def jsOrString (a : Option String) (b : String) : String :=
  match a with
  | some s => if s = "" then b else s
  | none => b

/-- JavaScript `String.prototype.startsWith`: prefix test. -/
def jsStartsW (s pre : String) : Bool :=
  pre.data.isPrefixOf s.data

/-- JavaScript `String.prototype.includes`: substring containment. -/
def jsIncludes (s sub : String) : Bool :=
  (List.range (s.data.length + 1)).any fun i => sub.data.isPrefixOf (s.data.drop i)

/-- The relevant fields of an AWS-SDK `Instance` descriptor
(`aws-provider.ts` uses `InstanceId`, `State?.Name`, `PublicIpAddress`,
`PrivateIpAddress`). -/
structure EC2Instance where
  instanceId : Option String
  stateName : Option String
  publicIpAddress : Option String
  privateIpAddress : Option String
deriving Repr, DecidableEq

/-- The relevant field of the AWS-SDK `RunInstancesCommand` response. -/
structure RunInstancesResponse where
  instances : Option (List EC2Instance)
deriving Repr, DecidableEq

/-- `aws-provider.ts` `mapEC2Status`: `running` and `stopped` map to
themselves, every other or absent state name falls to the `default` arm. -/
def AWSProvider.mapEC2Status (status : Option String) : InstanceStatus :=
  if status = some "running" then .running
  else if status = some "stopped" then .stopped
  else .terminated

/-- `aws-provider.ts` `mapEC2InstanceToComputeInstance`. -/
def AWSProvider.mapEC2InstanceToComputeInstance (inst : EC2Instance) :
    ComputeInstance :=
  { id := inst.instanceId.getD ""
    status := AWSProvider.mapEC2Status inst.stateName
    publicIp := inst.publicIpAddress
    privateIp := inst.privateIpAddress }

/-- `aws-provider.ts` `createComputeInstance`, as a function of the outcome of
`this.ec2Client.send(command)`.  The `try` body throws a plain `Error` on an
empty `Instances` array; the `catch` arm rethrows every failure as
`` new Error(`Failed to create compute instance: ${error}`) ``. -/
def AWSProvider.createComputeInstance
    (sendResult : Except JsError RunInstancesResponse) :
    Except JsError ComputeInstance :=
  let body : Except JsError ComputeInstance := do
    let response ← sendResult
    match response.instances with
    | none => throw (JsError.plainError "Failed to create EC2 instance")
    | some [] => throw (JsError.plainError "Failed to create EC2 instance")
    | some (inst :: _) =>
      pure (AWSProvider.mapEC2InstanceToComputeInstance inst)
  match body with
  | .ok v => .ok v
  | .error e =>
    .error (.plainError ("Failed to create compute instance: " ++ e.displayString))

/-- `aws-provider.ts` `uploadFile` locator: `` `s3://${container}/${path}` ``. -/
def AWSProvider.uploadLocator (container path : String) : String :=
  "s3://" ++ container ++ "/" ++ path

/-- `aws-provider.ts` `getModelImage` runtime map (`runtimeMap`). -/
def AWSProvider.runtimeMap : String → Option String
  | "pytorch" =>
    some "763104351884.dkr.ecr.us-east-1.amazonaws.com/pytorch-inference:1.8.1-cpu-py36-ubuntu18.04"
  | "tensorflow" =>
    some "763104351884.dkr.ecr.us-east-1.amazonaws.com/tensorflow-inference:2.5.1-cpu-py37-ubuntu18.04"
  | "sklearn" =>
    some "683313688378.dkr.ecr.us-east-1.amazonaws.com/sagemaker-scikit-learn:0.23-1-cpu-py3"
  | _ => none

/-- `aws-provider.ts` `getModelImage`: `runtimeMap[runtime] || runtimeMap['pytorch']`. -/
def AWSProvider.getModelImage (runtime : String) : String :=
  match AWSProvider.runtimeMap runtime with
  | some image => image
  | none =>
    "763104351884.dkr.ecr.us-east-1.amazonaws.com/pytorch-inference:1.8.1-cpu-py36-ubuntu18.04"

/-- One storage-upload call issued by `deployModel` (container, key, bytes). -/
structure UploadCall where
  container : String
  path : String
  content : List Nat
deriving Repr, DecidableEq

/-- One file passed to `deployModel` (`{ path, content }`). -/
structure ModelFile where
  path : String
  content : List Nat
deriving Repr, DecidableEq

/-- The `CreateModelCommand` arguments of `aws-provider.ts` `deployModel`. -/
structure SageMakerRegisterCall where
  modelName : String
  image : String
  modelDataUrl : Option String
deriving Repr, DecidableEq

/-- The vendor calls `aws-provider.ts` `deployModel` issues: a list of
uploads and a single model-registration call. -/
structure AWSDeployTrace where
  uploads : List UploadCall
  register : SageMakerRegisterCall
deriving Repr, DecidableEq

/-- `aws-provider.ts` `deployModel`: uploads every file to container
`'model-artifacts'` under `` `${options.modelId}/${file.path}` ``, then issues
one `CreateModelCommand` with `Image: getModelImage(options.runtime || 'pytorch')`
and `ModelDataUrl: modelArtifacts[0]` (JavaScript indexing: `undefined` on an
empty array). -/
def AWSProvider.deployModel (options : MLModelOptions)
    (modelFiles : List ModelFile) : AWSDeployTrace :=
  let uploads := modelFiles.map fun file =>
    ({ container := "model-artifacts"
       path := options.modelId ++ "/" ++ file.path
       content := file.content } : UploadCall)
  let modelArtifacts := uploads.map fun u => AWSProvider.uploadLocator u.container u.path
  { uploads := uploads
    register :=
      { modelName := options.modelId
        image := AWSProvider.getModelImage (jsOrString options.runtime "pytorch")
        modelDataUrl := modelArtifacts.head? } }

/-- The health record returned by `healthCheck` (`status` plus the three
service flags). -/
structure HealthReport where
  healthy : Bool
  compute : Bool
  storage : Bool
  ml : Bool
deriving Repr, DecidableEq

/-- `aws-provider.ts` `healthCheck`, as a function of the outcomes of its three
probe calls (`DescribeInstancesCommand`, `GetObjectCommand`,
`CreateModelCommand`).  Each probe sits in its own `try { ... } catch {}`:
success sets that flag, failure is swallowed; `status` is `'healthy'` exactly
when `Object.values(services).every(s => s)`.  The whole method body never
throws, hence the `Except.ok` result. -/
def AWSProvider.healthCheck (computeProbe storageProbe mlProbe : Except JsError Unit) :
    Except JsError HealthReport :=
  let compute := match computeProbe with | .ok _ => true | .error _ => false
  let storage := match storageProbe with | .ok _ => true | .error _ => false
  let ml := match mlProbe with | .ok _ => true | .error _ => false
  .ok { healthy := compute && storage && ml
        compute := compute
        storage := storage
        ml := ml }

/-- One entry of `VirtualMachineInstanceView.statuses` (`azure-provider.ts`
reads only the optional `code` field). -/
structure AzureViewStatus where
  code : Option String
deriving Repr, DecidableEq

/-- The fields of an Azure `VirtualMachine` descriptor that
`mapAzureVMToComputeInstance` reads. -/
structure AzureVM where
  name : Option String
  firstNicId : Option String
deriving Repr, DecidableEq

/-- The `find(s => s.code?.startsWith('PowerState/'))` step of
`azure-provider.ts` `mapAzureVMToComputeInstance`, returning the found
status's `code`. -/
def AzureProvider.findPowerState (statuses : List AzureViewStatus) :
    Option String :=
  (statuses.find? fun s =>
      match s.code with
      | some c => jsStartsW c "PowerState/"
      | none => false).bind
    (fun s => s.code)

/-- The status computation of `azure-provider.ts`
`mapAzureVMToComputeInstance`: start from `'terminated'`; if the instance view
is present, find the first `PowerState/` status and test its code with
`includes('running')` / `includes('stopped')`. -/
def AzureProvider.mapAzureStatus (instanceView : Option (List AzureViewStatus)) :
    InstanceStatus :=
  match instanceView with
  | none => .terminated
  | some statuses =>
    match AzureProvider.findPowerState statuses with
    | some code =>
      if jsIncludes code "running" then .running
      else if jsIncludes code "stopped" then .stopped
      else .terminated
    | none => .terminated

/-- `azure-provider.ts` `mapAzureVMToComputeInstance`. -/
def AzureProvider.mapAzureVMToComputeInstance (vm : AzureVM)
    (instanceView : Option (List AzureViewStatus)) : ComputeInstance :=
  { id := vm.name.getD ""
    status := AzureProvider.mapAzureStatus instanceView
    publicIp := vm.firstNicId
    privateIp := none }

/-- `azure-provider.ts` `downloadFile`, as a function of the outcome of the
blob download (the drained chunk list).  Success concatenates the chunks; the
`catch` arm rethrows every failure as
`` new Error(`Failed to download file: ${error}`) ``. -/
def AzureProvider.downloadFile
    (downloadResult : Except JsError (List (List Nat))) :
    Except JsError (List Nat) :=
  match downloadResult with
  | .ok chunks => .ok chunks.flatten
  | .error e =>
    .error (.plainError ("Failed to download file: " ++ e.displayString))

/-- The `models.createOrUpdate` arguments of `azure-provider.ts`
`deployModel`. -/
structure AzureRegisterCall where
  resourceGroup : String
  modelId : String
  modelUri : Option String
  framework : String
  version : String
deriving Repr, DecidableEq

/-- The vendor calls `azure-provider.ts` `deployModel` issues: a list of
uploads, a single model-registration call, and one endpoint deployment. -/
structure AzureDeployTrace where
  uploads : List UploadCall
  register : AzureRegisterCall
  endpointName : String
deriving Repr, DecidableEq

/-- `azure-provider.ts` `deployModel`, parametric in the vendor-issued blob
URL (`blockBlobClient.url`, a function of container and blob path): uploads
every file to container `'model-artifacts'` under
`` `${options.modelId}/${file.path}` ``, then calls `models.createOrUpdate`
with `modelUri: modelArtifacts[0]`, `framework: options.runtime || 'pytorch'`,
`version: options.version || '1.0'`, and deploys endpoint
`` `${options.modelId}-endpoint` ``. -/
def AzureProvider.deployModel (blobUrl : String → String → String)
    (options : MLModelOptions) (modelFiles : List ModelFile) :
    AzureDeployTrace :=
  let uploads := modelFiles.map fun file =>
    ({ container := "model-artifacts"
       path := options.modelId ++ "/" ++ file.path
       content := file.content } : UploadCall)
  let modelArtifacts := uploads.map fun u => blobUrl u.container u.path
  { uploads := uploads
    register :=
      { resourceGroup := "dsar-resource-group"
        modelId := options.modelId
        modelUri := modelArtifacts.head?
        framework := jsOrString options.runtime "pytorch"
        version := jsOrString options.version "1.0" }
    endpointName := options.modelId ++ "-endpoint" }

/-- `azure-provider.ts` `healthCheck`, as a function of the outcomes of its
three probe calls (`virtualMachines.list`, `getProperties`, `models.list`).
Identical per-probe `try { ... } catch {}` structure to the AWS variant. -/
def AzureProvider.healthCheck (computeProbe storageProbe mlProbe : Except JsError Unit) :
    Except JsError HealthReport :=
  let compute := match computeProbe with | .ok _ => true | .error _ => false
  let storage := match storageProbe with | .ok _ => true | .error _ => false
  let ml := match mlProbe with | .ok _ => true | .error _ => false
  .ok { healthy := compute && storage && ml
        compute := compute
        storage := storage
        ml := ml }

/-- Which concrete provider class an `ICloudProvider` instance is. -/
inductive ProviderKind where
  | aws
  | azure
deriving Repr, DecidableEq

/-- A constructed provider instance: its class plus the `CloudConfig` stored
by `BaseCloudProvider`'s constructor (`this.config = config`). -/
structure ProviderInstance where
  kind : ProviderKind
  config : CloudConfig
deriving Repr, DecidableEq

/-- `cloud-provider.interface` (`src/unnamed/part_003`)
`BaseCloudProvider.getConfig`: pure accessor returning the stored config. -/
def BaseCloudProvider.getConfig (p : ProviderInstance) : CloudConfig :=
  p.config

/-- The `AWSProvider` constructor: `super(config)` stores the config, then a
missing `config.credentials.aws` block throws
`Error('AWS credentials not provided')`. -/
def AWSProvider.construct (config : CloudConfig) :
    Except JsError ProviderInstance :=
  match config.credentials.aws with
  | none => .error (.plainError "AWS credentials not provided")
  | some _ => .ok { kind := .aws, config := config }

/-- The `AzureProvider` constructor: `super(config)` stores the config, then a
missing `config.credentials.azure` block throws
`Error('Azure credentials not provided')`. -/
def AzureProvider.construct (config : CloudConfig) :
    Except JsError ProviderInstance :=
  match config.credentials.azure with
  | none => .error (.plainError "Azure credentials not provided")
  | some _ => .ok { kind := .azure, config := config }

/-- The factory's mutable state: the `currentProvider?: ICloudProvider`
field of `cloud-provider.factory.ts`. -/
structure FactoryState where
  currentProvider : Option ProviderInstance
deriving Repr, DecidableEq

/-- `cloud-provider.factory.ts` `CloudProviderFactory.getProvider`: return the
cached instance if present; otherwise switch on `config.provider`, check the
matching credential block, construct and cache the new instance.  The result
pairs the returned-or-thrown value with the factory state after the call
(`this.currentProvider` is only assigned when construction succeeds). -/
def CloudProviderFactory.getProvider (st : FactoryState) (config : CloudConfig) :
    Except JsError ProviderInstance × FactoryState :=
  match st.currentProvider with
  | some p => (.ok p, st)
  | none =>
    if config.provider = "aws" then
      match config.credentials.aws with
      | none => (.error (.plainError "AWS credentials not provided"), st)
      | some _ =>
        match AWSProvider.construct config with
        | .ok p => (.ok p, { currentProvider := some p })
        | .error e => (.error e, st)
    else if config.provider = "azure" then
      match config.credentials.azure with
      | none => (.error (.plainError "Azure credentials not provided"), st)
      | some _ =>
        match AzureProvider.construct config with
        | .ok p => (.ok p, { currentProvider := some p })
        | .error e => (.error e, st)
    else
      (.error (.plainError ("Unsupported cloud provider: " ++ config.provider)), st)

/-- `cloud-provider.factory.ts` `CloudProviderFactory.clearProvider`:
`this.currentProvider = undefined`. -/
def CloudProviderFactory.clearProvider (_st : FactoryState) : FactoryState :=
  { currentProvider := none }

/-- The config loader's mutable state: the `config?: CloudConfig` field of
`ConfigLoader` (`cloud-provider.factory.ts`, second module). -/
structure ConfigLoaderState where
  config : Option CloudConfig
deriving Repr, DecidableEq

/-- `ConfigLoader.getRequiredEnv`: a missing or falsy (empty) environment
variable throws `` Error(`Required environment variable ${name} is not set`) ``. -/
def ConfigLoader.getRequiredEnv (env : String → Option String) (name : String) :
    Except JsError String :=
  match env name with
  | some v =>
    if v = "" then
      .error (.plainError ("Required environment variable " ++ name ++ " is not set"))
    else .ok v
  | none =>
    .error (.plainError ("Required environment variable " ++ name ++ " is not set"))

/-- `ConfigLoader.loadConfig`, as a function of the loader state, the optional
`provider` argument and the process environment.  A cached config with no
explicit provider argument is returned as-is; otherwise the environment is
read: `(provider || env.CLOUD_PROVIDER || 'aws').toLowerCase()` selects the
branch, required variables are read in source order, and on success the cache
is replaced.  The result pairs the returned-or-thrown value with the loader
state after the call. -/
def ConfigLoader.loadConfig (st : ConfigLoaderState) (provider : Option String)
    (env : String → Option String) :
    Except JsError CloudConfig × ConfigLoaderState :=
  match st.config, provider with
  | some c, none => (.ok c, st)
  | _, _ =>
    let envProvider :=
      jsToLowerCase (jsOrString provider (jsOrString (env "CLOUD_PROVIDER") "aws"))
    let region := jsOrString (env "CLOUD_REGION") "us-east-1"
    let loaded : Except JsError CloudConfig :=
      if envProvider = "aws" then do
        let accessKeyId ← ConfigLoader.getRequiredEnv env "AWS_ACCESS_KEY_ID"
        let secretAccessKey ← ConfigLoader.getRequiredEnv env "AWS_SECRET_ACCESS_KEY"
        pure { provider := envProvider
               credentials :=
                 { region := region
                   aws := some { accessKeyId := accessKeyId
                                 secretAccessKey := secretAccessKey }
                   azure := none } }
      else if envProvider = "azure" then do
        let tenantId ← ConfigLoader.getRequiredEnv env "AZURE_TENANT_ID"
        let clientId ← ConfigLoader.getRequiredEnv env "AZURE_CLIENT_ID"
        let clientSecret ← ConfigLoader.getRequiredEnv env "AZURE_CLIENT_SECRET"
        let subscriptionId ← ConfigLoader.getRequiredEnv env "AZURE_SUBSCRIPTION_ID"
        let storageConnectionString ←
          ConfigLoader.getRequiredEnv env "AZURE_STORAGE_CONNECTION_STRING"
        pure { provider := envProvider
               credentials :=
                 { region := region
                   aws := none
                   azure := some { tenantId := tenantId
                                   clientId := clientId
                                   clientSecret := clientSecret
                                   subscriptionId := subscriptionId
                                   storageConnectionString := storageConnectionString } } }
      else
        .error (.plainError ("Unsupported cloud provider: " ++ envProvider))
    match loaded with
    | .ok cfg => (.ok cfg, { config := some cfg })
    | .error e => (.error e, st)

/-- A concrete vendor-issued blob-URL shape, for instantiating the
`blobUrl` parameter of `AzureProvider.deployModel` at closed inputs. -/
def demoBlobUrl (container path : String) : String :=
  "https://account.blob.core.windows.net/" ++ container ++ "/" ++ path

/-- A valid AWS configuration (the shape the repository's own test uses). -/
def awsDemoConfig : CloudConfig :=
  { provider := "aws"
    credentials :=
      { region := "us-east-1"
        aws := some { accessKeyId := "test-key", secretAccessKey := "test-secret" }
        azure := none } }

/-- A valid Azure configuration (the shape the factory's usage example uses). -/
def azureDemoConfig : CloudConfig :=
  { provider := "azure"
    credentials :=
      { region := "eastus"
        aws := none
        azure := some { tenantId := "test-tenant"
                        clientId := "test-client"
                        clientSecret := "test-secret"
                        subscriptionId := "test-subscription"
                        storageConnectionString := "test-connection-string" } } }

/-- A process environment holding only the two AWS variables. -/
def demoAwsEnv (name : String) : Option String :=
  if name = "AWS_ACCESS_KEY_ID" then some "test-key"
  else if name = "AWS_SECRET_ACCESS_KEY" then some "test-secret"
  else none

/-- C1: the spec and the repository's own tests require every capability
operation to re-raise vendor failures as a `CloudProviderError` tagged with
the offending service, but the provider implementations wrap failures in a
plain `Error` instead (and never call `wrapProviderOperation`): at the
concrete failing vendor call below, `AWSProvider.createComputeInstance` and
`AzureProvider.downloadFile` both surface an untagged plain `Error`. -/
theorem providerOperations_raise_untagged_errors :
    AWSProvider.createComputeInstance (.error (.plainError "network failure")) =
      .error (.plainError "Failed to create compute instance: Error: network failure") ∧
    AzureProvider.downloadFile (.error (.plainError "blob not found")) =
      .error (.plainError "Failed to download file: Error: blob not found") ∧
    JsError.isCloudProviderError
      (.plainError "Failed to create compute instance: Error: network failure") = false ∧
    JsError.isCloudProviderError
      (.plainError "Failed to download file: Error: blob not found") = false :=
  ⟨rfl, rfl, rfl, rfl⟩

/-- C2: `healthCheck` (both providers) returns normally for every combination
of probe outcomes; each service flag equals its own probe's success,
independent of the other probes; and the status is `healthy` exactly when all
three flags are true. -/
theorem healthCheck_total_flags_and_status
    (pc ps pm : Except JsError Unit) :
    ∃ h : HealthReport,
      AWSProvider.healthCheck pc ps pm = .ok h ∧
      AzureProvider.healthCheck pc ps pm = .ok h ∧
      h.compute = pc.isOk ∧ h.storage = ps.isOk ∧ h.ml = pm.isOk ∧
      (h.healthy = true ↔ (h.compute = true ∧ h.storage = true ∧ h.ml = true)) := by
  cases pc <;> cases ps <;> cases pm <;>
    refine ⟨_, rfl, rfl, rfl, rfl, rfl, ?_⟩ <;> simp

/-- C5: on a failing operation, `wrapProviderOperation` rethrows an error that
is already a `CloudProviderError` unchanged, and wraps any other error into a
new `CloudProviderError` tagged with the given provider and service, with
message `{PROVIDER} {service} error: {original message}` (provider
upper-cased) and carrying the original error. -/
theorem wrapProviderOperation_passthrough_or_tags {T : Type} (provider : String)
    (service : CloudService) (e : JsError) (op : Except JsError T)
    (h : op = .error e) :
    (e.isCloudProviderError = true →
      wrapProviderOperation op provider service = .error e) ∧
    (e.isCloudProviderError = false →
      wrapProviderOperation op provider service =
        .error (CloudProviderError.fromError e provider service) ∧
      (CloudProviderError.fromError e provider service).message =
        jsToUpperCase provider ++ " " ++ service.toStr ++ " error: " ++ e.message ∧
      (CloudProviderError.fromError e provider service).isCloudProviderError = true ∧
      (CloudProviderError.fromError e provider service).providerTag = some provider ∧
      (CloudProviderError.fromError e provider service).serviceTag =
        some service.toStr ∧
      (CloudProviderError.fromError e provider service).originalErrorOf = some e) := by
  subst h
  refine ⟨fun he => ?_, fun he => ⟨?_, rfl, rfl, rfl, rfl, rfl⟩⟩
  · simp [wrapProviderOperation, he]
  · simp [wrapProviderOperation, he]

/-- Witness for C5 at a concrete plain error. -/
theorem wrapProviderOperation_passthrough_or_tags_witness :
    wrapProviderOperation (.error (.plainError "boom") : Except JsError Nat)
        "aws" .compute =
      .error (.cloudProviderError "AWS compute error: boom" "aws" "compute"
        (some (.plainError "boom"))) :=
  ((wrapProviderOperation_passthrough_or_tags "aws" .compute
      (.plainError "boom") (.error (.plainError "boom")) rfl).2 rfl).1

/-- C8: status normalization.  AWS `mapEC2Status` yields `running` / `stopped`
exactly for the vendor state names `'running'` / `'stopped'` and `terminated`
for every other or absent state (in particular `'pending'`).  Azure's mapping
yields `running` / `stopped` for the vendor power states
`PowerState/running` / `PowerState/stopped`, and `terminated` for every other
power state of the vendor vocabulary (`starting`, `stopping`, `deallocating`,
`deallocated`), for a non-power-state status such as `'pending'`, and for an
absent instance view or empty status list. -/
theorem vendorStatus_normalization (s : Option String) :
    (AWSProvider.mapEC2Status s = .running ↔ s = some "running") ∧
    (AWSProvider.mapEC2Status s = .stopped ↔ s = some "stopped") ∧
    (AWSProvider.mapEC2Status s = .terminated ↔
      (s ≠ some "running" ∧ s ≠ some "stopped")) ∧
    AWSProvider.mapEC2Status (some "pending") = .terminated ∧
    AWSProvider.mapEC2Status none = .terminated ∧
    AzureProvider.mapAzureStatus (some [{ code := some "PowerState/running" }]) =
      .running ∧
    AzureProvider.mapAzureStatus (some [{ code := some "PowerState/stopped" }]) =
      .stopped ∧
    AzureProvider.mapAzureStatus (some [{ code := some "PowerState/starting" }]) =
      .terminated ∧
    AzureProvider.mapAzureStatus (some [{ code := some "PowerState/stopping" }]) =
      .terminated ∧
    AzureProvider.mapAzureStatus (some [{ code := some "PowerState/deallocating" }]) =
      .terminated ∧
    AzureProvider.mapAzureStatus (some [{ code := some "PowerState/deallocated" }]) =
      .terminated ∧
    AzureProvider.mapAzureStatus (some [{ code := some "pending" }]) = .terminated ∧
    AzureProvider.mapAzureStatus (some [{ code := none }]) = .terminated ∧
    AzureProvider.mapAzureStatus (some []) = .terminated ∧
    AzureProvider.mapAzureStatus none = .terminated := by
  refine ⟨?_, ?_, ?_, by decide, by decide, by decide, by decide, by decide,
    by decide, by decide, by decide, by decide, by decide, by decide, by decide⟩ <;>
  · unfold AWSProvider.mapEC2Status
    split_ifs with h1 h2 <;> simp_all

/-- C3: `deployModel` with files `f :: rest` (N = 1 + rest.length) issues
exactly N uploads on either provider, each to the fixed container
`'model-artifacts'` under key `{modelId}/{relativePath}`, and its single
model-registration call (the one `register` field of the trace) references
exactly the locator of the first file of the input array. -/
theorem deployModel_uploads_and_primary_artifact
    (blobUrl : String → String → String) (options : MLModelOptions)
    (f : ModelFile) (rest : List ModelFile) :
    (AWSProvider.deployModel options (f :: rest)).uploads =
      (f :: rest).map (fun file =>
        { container := "model-artifacts"
          path := options.modelId ++ "/" ++ file.path
          content := file.content }) ∧
    (AWSProvider.deployModel options (f :: rest)).uploads.length =
      (f :: rest).length ∧
    (AWSProvider.deployModel options (f :: rest)).register.modelDataUrl =
      some (AWSProvider.uploadLocator "model-artifacts"
        (options.modelId ++ "/" ++ f.path)) ∧
    (AzureProvider.deployModel blobUrl options (f :: rest)).uploads =
      (f :: rest).map (fun file =>
        { container := "model-artifacts"
          path := options.modelId ++ "/" ++ file.path
          content := file.content }) ∧
    (AzureProvider.deployModel blobUrl options (f :: rest)).uploads.length =
      (f :: rest).length ∧
    (AzureProvider.deployModel blobUrl options (f :: rest)).register.modelUri =
      some (blobUrl "model-artifacts" (options.modelId ++ "/" ++ f.path)) := by
  refine ⟨rfl, ?_, rfl, rfl, ?_, rfl⟩ <;>
    simp [AWSProvider.deployModel, AzureProvider.deployModel]

/-- C9 counterexample: on Azure, `deployModel` with the unrecognized runtime
`'onnx'` passes `'onnx'` through as the registration call's framework
reference; it is not the `'pytorch'` default that an identical call with
runtime `'pytorch'` produces. -/
theorem azure_unrecognized_runtime_not_pytorch :
    (AzureProvider.deployModel demoBlobUrl
        { modelId := "m", version := none, runtime := some "onnx" }
        [{ path := "model.onnx", content := [] }]).register.framework = "onnx" ∧
    (AzureProvider.deployModel demoBlobUrl
        { modelId := "m", version := none, runtime := some "pytorch" }
        [{ path := "model.onnx", content := [] }]).register.framework = "pytorch" ∧
    ("onnx" : String) ≠ "pytorch" :=
  ⟨rfl, rfl, by decide⟩

/-- C9 amended: for a present, non-empty runtime name outside the recognized
map, AWS `deployModel` falls back to the pytorch image (the same reference an
identical call with runtime `'pytorch'` uses), while Azure passes the runtime
string through unchanged as the framework reference (its `'pytorch'` default
applies only to an absent or empty runtime). -/
theorem unrecognized_runtime_defaults
    (blobUrl : String → String → String) (options : MLModelOptions)
    (files : List ModelFile) (r : String) (h1 : options.runtime = some r)
    (h2 : AWSProvider.runtimeMap r = none) (h3 : r ≠ "") :
    (AWSProvider.deployModel options files).register.image =
      "763104351884.dkr.ecr.us-east-1.amazonaws.com/pytorch-inference:1.8.1-cpu-py36-ubuntu18.04" ∧
    (AWSProvider.deployModel options files).register.image =
      (AWSProvider.deployModel { options with runtime := some "pytorch" }
        files).register.image ∧
    (AzureProvider.deployModel blobUrl options files).register.framework = r := by
  have hl : (AWSProvider.deployModel options files).register.image =
      "763104351884.dkr.ecr.us-east-1.amazonaws.com/pytorch-inference:1.8.1-cpu-py36-ubuntu18.04" := by
    simp [AWSProvider.deployModel, jsOrString, h1, h3, AWSProvider.getModelImage, h2]
  have hr : (AWSProvider.deployModel { options with runtime := some "pytorch" }
      files).register.image =
      "763104351884.dkr.ecr.us-east-1.amazonaws.com/pytorch-inference:1.8.1-cpu-py36-ubuntu18.04" := rfl
  refine ⟨hl, by rw [hl, hr], ?_⟩
  simp [AzureProvider.deployModel, jsOrString, h1, h3]

/-- Witness for C9's amended claim at the concrete runtime `'onnx'`. -/
theorem unrecognized_runtime_defaults_witness :
    (AWSProvider.deployModel
        { modelId := "m", version := none, runtime := some "onnx" }
        [{ path := "model.onnx", content := [] }]).register.image =
      "763104351884.dkr.ecr.us-east-1.amazonaws.com/pytorch-inference:1.8.1-cpu-py36-ubuntu18.04" :=
  (unrecognized_runtime_defaults demoBlobUrl
    { modelId := "m", version := none, runtime := some "onnx" }
    [{ path := "model.onnx", content := [] }] "onnx" rfl rfl (by decide)).1

/-- A successful `getProvider` call always leaves the returned instance in the
cache (shared helper for the factory theorems). -/
theorem getProvider_ok_caches (st : FactoryState) (c : CloudConfig)
    (p : ProviderInstance) (st' : FactoryState)
    (h : CloudProviderFactory.getProvider st c = (.ok p, st')) :
    st'.currentProvider = some p := by
  unfold CloudProviderFactory.getProvider at h
  cases hcur : st.currentProvider with
  | some q =>
    rw [hcur] at h
    injection h with h1 h2
    injection h1 with h1
    subst h1; subst h2
    exact hcur
  | none =>
    rw [hcur] at h
    by_cases ha : c.provider = "aws"
    · rw [if_pos ha] at h
      cases hcred : c.credentials.aws with
      | none => simp only [hcred] at h; simp at h
      | some cr =>
        simp only [hcred, AWSProvider.construct] at h
        injection h with h1 h2
        injection h1 with h1
        subst h1; subst h2
        rfl
    · rw [if_neg ha] at h
      by_cases hz : c.provider = "azure"
      · rw [if_pos hz] at h
        cases hcred : c.credentials.azure with
        | none => simp only [hcred] at h; simp at h
        | some cr =>
          simp only [hcred, AzureProvider.construct] at h
          injection h with h1 h2
          injection h1 with h1
          subst h1; subst h2
          rfl
      · rw [if_neg hz] at h
        simp at h

/-- C4: once `getProvider` has succeeded, every subsequent `getProvider` call
returns the same cached instance and leaves the state untouched, no matter
what configuration the later call passes, until `clearProvider` evicts it. -/
theorem getProvider_ignores_later_configs (st : FactoryState) (c c2 : CloudConfig)
    (p : ProviderInstance) (st' : FactoryState)
    (h : CloudProviderFactory.getProvider st c = (.ok p, st')) :
    CloudProviderFactory.getProvider st' c2 = (.ok p, st') := by
  have hc := getProvider_ok_caches st c p st' h
  unfold CloudProviderFactory.getProvider
  rw [hc]

/-- Witness for C4: an AWS instance built from a valid config is then returned
verbatim for a later call passing the (different, Azure) configuration. -/
theorem getProvider_ignores_later_configs_witness :
    CloudProviderFactory.getProvider
        { currentProvider := some { kind := .aws, config := awsDemoConfig } }
        azureDemoConfig =
      (.ok { kind := .aws, config := awsDemoConfig },
       { currentProvider := some { kind := .aws, config := awsDemoConfig } }) :=
  getProvider_ignores_later_configs { currentProvider := none } awsDemoConfig
    azureDemoConfig { kind := .aws, config := awsDemoConfig }
    { currentProvider := some { kind := .aws, config := awsDemoConfig } } rfl

/-- C6: with an empty cache, `getProvider` on a configuration whose provider
value is neither `'aws'` nor `'azure'` throws the unsupported-provider error
and leaves the factory state unchanged — the cache is still empty. -/
theorem getProvider_unsupported_keeps_state (c : CloudConfig)
    (h1 : c.provider ≠ "aws") (h2 : c.provider ≠ "azure") :
    CloudProviderFactory.getProvider { currentProvider := none } c =
      (.error (.plainError ("Unsupported cloud provider: " ++ c.provider)),
       { currentProvider := none }) := by
  unfold CloudProviderFactory.getProvider
  simp [h1, h2]

/-- Witness for C6 at the concrete unsupported provider value `'gcp'`. -/
theorem getProvider_unsupported_keeps_state_witness :
    CloudProviderFactory.getProvider { currentProvider := none }
        { provider := "gcp"
          credentials := { region := "us-east-1", aws := none, azure := none } } =
      (.error (.plainError "Unsupported cloud provider: gcp"),
       { currentProvider := none }) :=
  getProvider_unsupported_keeps_state
    { provider := "gcp"
      credentials := { region := "us-east-1", aws := none, azure := none } }
    (by decide) (by decide)

/-- C7: after `clearProvider`, a `getProvider` call with a supported provider
value and its matching credential block succeeds (returns an instance, so in
particular a non-null one) and the instance's `getConfig().provider` is the
provider value requested by that call, whatever was cached before. -/
theorem clear_then_getProvider_reflects_config (st : FactoryState)
    (c : CloudConfig)
    (h : (c.provider = "aws" ∧ c.credentials.aws ≠ none) ∨
         (c.provider = "azure" ∧ c.credentials.azure ≠ none)) :
    ∃ p : ProviderInstance,
      CloudProviderFactory.getProvider (CloudProviderFactory.clearProvider st) c =
        (.ok p, { currentProvider := some p }) ∧
      (BaseCloudProvider.getConfig p).provider = c.provider := by
  rcases h with ⟨hp, hcred⟩ | ⟨hp, hcred⟩
  · obtain ⟨cr, hcr⟩ := Option.ne_none_iff_exists'.mp hcred
    refine ⟨{ kind := .aws, config := c }, ?_, rfl⟩
    unfold CloudProviderFactory.clearProvider CloudProviderFactory.getProvider
      AWSProvider.construct
    simp [hp, hcr]
  · obtain ⟨cr, hcr⟩ := Option.ne_none_iff_exists'.mp hcred
    refine ⟨{ kind := .azure, config := c }, ?_, rfl⟩
    unfold CloudProviderFactory.clearProvider CloudProviderFactory.getProvider
      AzureProvider.construct
    simp [hp, hcr]

/-- Witness for C7: an AWS instance is cached, `clearProvider` runs, and a
`getProvider` with the Azure configuration returns an instance whose stored
config names `'azure'`. -/
theorem clear_then_getProvider_reflects_config_witness :
    ∃ p : ProviderInstance,
      CloudProviderFactory.getProvider
          (CloudProviderFactory.clearProvider
            { currentProvider := some { kind := .aws, config := awsDemoConfig } })
          azureDemoConfig =
        (.ok p, { currentProvider := some p }) ∧
      (BaseCloudProvider.getConfig p).provider = azureDemoConfig.provider :=
  clear_then_getProvider_reflects_config
    { currentProvider := some { kind := .aws, config := awsDemoConfig } }
    azureDemoConfig (Or.inr ⟨rfl, by decide⟩)

/-- C10: once a configuration is cached, `loadConfig` with no provider
argument returns that exact cached configuration with the state unchanged,
and its result does not depend on the environment at all (so later
environment changes are unobservable to such calls); a call that does pass a
provider argument re-reads the environment and replaces the cache. -/
theorem loadConfig_cached_ignores_env (c : CloudConfig)
    (env env2 : String → Option String) (p ak sk : String)
    (hp : jsToLowerCase p = "aws")
    (hak : env "AWS_ACCESS_KEY_ID" = some ak) (hak' : ak ≠ "")
    (hsk : env "AWS_SECRET_ACCESS_KEY" = some sk) (hsk' : sk ≠ "") :
    ConfigLoader.loadConfig { config := some c } none env =
      (.ok c, { config := some c }) ∧
    ConfigLoader.loadConfig { config := some c } none env =
      ConfigLoader.loadConfig { config := some c } none env2 ∧
    (∃ cfg : CloudConfig,
      ConfigLoader.loadConfig { config := some c } (some p) env =
        (.ok cfg, { config := some cfg }) ∧
      cfg.provider = "aws" ∧
      cfg.credentials.aws =
        some { accessKeyId := ak, secretAccessKey := sk }) := by
  refine ⟨rfl, rfl, ?_⟩
  have hp0 : p ≠ "" := by
    intro h0
    rw [h0] at hp
    exact absurd hp (by decide)
  refine ⟨{ provider := "aws"
            credentials :=
              { region := jsOrString (env "CLOUD_REGION") "us-east-1"
                aws := some { accessKeyId := ak, secretAccessKey := sk }
                azure := none } }, ?_, rfl, rfl⟩
  unfold ConfigLoader.loadConfig
  simp [jsOrString, hp0, hp, ConfigLoader.getRequiredEnv, hak, hak', hsk, hsk']
  rfl

/-- Witness for C10: with a cached config and no provider argument,
`loadConfig` returns the cached value unchanged. -/
theorem loadConfig_cached_ignores_env_witness :
    ConfigLoader.loadConfig { config := some awsDemoConfig } none demoAwsEnv =
      (.ok awsDemoConfig, { config := some awsDemoConfig }) :=
  (loadConfig_cached_ignores_env awsDemoConfig demoAwsEnv (fun _ => none)
    "AWS" "test-key" "test-secret" (by decide) rfl (by decide) rfl (by decide)).1
